import Mathlib

/-!
# Verification of the geospatial service-provider search core

This development embeds the geospatial search core of a cleaning-services
marketplace backend (Firebase cloud functions written in TypeScript) and
proves, or refutes, the properties its specification states about it.

The embedding covers:

* the geohash codec (`src/utils/geohash.ts`), including the behaviour of the
  `ngeohash` library functions it delegates to (`encode`, `decode`,
  `neighbors`), translated from that library's published implementation;
* the `searchServiceProviders` callable (`src/functions/serviceProviderFunctions.ts`,
  geohash-based version), including request validation, the Firestore range
  query on the stored geohash, the Haversine refinement filter, the profile
  join, rounding, and the final sort.

JavaScript numbers are modelled as exact rationals (`ℚ`) in the computable
parts (coordinates, radii, geohash bisection) and as reals (`ℝ`) where the
code uses transcendental functions (the Haversine distance).  JavaScript
exceptions are modelled with `Except String`; a field that may be absent at
runtime (Firestore documents are schemaless) is modelled with `Option`.
-/

/-! ## Geohash codec (`ngeohash` library + `src/utils/geohash.ts`) -/

/-- The base-32 alphabet of the geohash encoding
(`BASE32_CODES` in the ngeohash library). -/
def base32Codes : List Char :=
  ['0', '1', '2', '3', '4', '5', '6', '7', '8', '9', 'b', 'c', 'd', 'e', 'f',
   'g', 'h', 'j', 'k', 'm', 'n', 'p', 'q', 'r', 's', 't', 'u', 'v', 'w', 'x',
   'y', 'z']

/-- Character for a 5-bit value (indexing into `BASE32_CODES`; the index is
always `< 32` when called from the encoder, so the default is unreachable). -/
def base32Char (n : Nat) : Char := base32Codes.getD n '0'

/-- Position of a character in the base-32 alphabet
(`BASE32_CODES_DICT` lookup in ngeohash). -/
def charValAux : List Char → Char → Nat
  | [], _ => 0
  | d :: ds, c => if d = c then 0 else 1 + charValAux ds c

/-- Value of a base-32 geohash character. -/
def charVal (c : Char) : Nat := charValAux base32Codes c

/-- The bit sequence produced by ngeohash's `encode` bisection loop: one bit
per iteration, alternating longitude (`isLon = true`) and latitude, each
halving the current bounding box and testing with a strict `>` comparison. -/
def toBits (lat lon : ℚ) : Nat → Bool → ℚ → ℚ → ℚ → ℚ → List Bool
  | 0, _, _, _, _, _ => []
  | n + 1, isLon, minLat, maxLat, minLon, maxLon =>
    if isLon then
      let mid := (maxLon + minLon) / 2
      if lon > mid then true :: toBits lat lon n false minLat maxLat mid maxLon
      else false :: toBits lat lon n false minLat maxLat minLon mid
    else
      let mid := (maxLat + minLat) / 2
      if lat > mid then true :: toBits lat lon n true mid maxLat minLon maxLon
      else false :: toBits lat lon n true minLat mid minLon maxLon

/-- Grouping of the bit stream into base-32 characters, five bits per
character, most significant bit first (ngeohash accumulates `hash_value`
and emits a character every five bits). -/
def chunk5 : List Bool → List Char
  | b0 :: b1 :: b2 :: b3 :: b4 :: rest =>
    base32Char (16 * b0.toNat + 8 * b1.toNat + 4 * b2.toNat + 2 * b3.toNat + b4.toNat)
      :: chunk5 rest
  | _ => []

/-- `ngeohash.encode(latitude, longitude, numberOfChars)`.  The library
defaults `numberOfChars || 9`, so an explicit `0` becomes `9`.  No input
validation is performed: out-of-range coordinates are bisected like any
other value. -/
def ngeohashEncode (latitude longitude : ℚ) (numberOfChars : Nat) : String :=
  let n := if numberOfChars = 0 then 9 else numberOfChars
  String.mk (chunk5 (toBits latitude longitude (5 * n) true (-90) 90 (-180) 180))

/-- `generateGeohash` from `src/utils/geohash.ts` (default precision 7). -/
def generateGeohash (latitude longitude : ℚ) (precision : Nat := 7) : String :=
  ngeohashEncode latitude longitude precision

/-- One bit of ngeohash's `decode_bbox` refinement: halve the current
bounding box `(minLat, maxLat, minLon, maxLon)` on the longitude or latitude
axis, keeping the upper half iff the bit is set. -/
def refineBit (isLon : Bool) (b : Bool) : ℚ × ℚ × ℚ × ℚ → ℚ × ℚ × ℚ × ℚ
  | (minLat, maxLat, minLon, maxLon) =>
    if isLon then
      let mid := (maxLon + minLon) / 2
      if b then (minLat, maxLat, mid, maxLon) else (minLat, maxLat, minLon, mid)
    else
      let mid := (maxLat + minLat) / 2
      if b then (mid, maxLat, minLon, maxLon) else (minLat, mid, minLon, maxLon)

/-- `decode_bbox` processing of one character: five bits, most significant
first, alternating axes. -/
def refineChar (c : Char) (isLon : Bool) (st : ℚ × ℚ × ℚ × ℚ) :
    Bool × (ℚ × ℚ × ℚ × ℚ) :=
  let v := charVal c
  let s1 := refineBit isLon (v.testBit 4) st
  let s2 := refineBit (!isLon) (v.testBit 3) s1
  let s3 := refineBit isLon (v.testBit 2) s2
  let s4 := refineBit (!isLon) (v.testBit 1) s3
  let s5 := refineBit isLon (v.testBit 0) s4
  (!isLon, s5)

/-- The character loop of `decode_bbox`. -/
def decodeBboxLoop : List Char → Bool → ℚ × ℚ × ℚ × ℚ → ℚ × ℚ × ℚ × ℚ
  | [], _, st => st
  | c :: cs, isLon, st =>
    let r := refineChar c isLon st
    decodeBboxLoop cs r.1 r.2

/-- `ngeohash.decode_bbox`: the bounding box of a geohash string. -/
def decodeBbox (g : String) : ℚ × ℚ × ℚ × ℚ :=
  decodeBboxLoop g.toList true (-90, 90, -180, 180)

/-- The result of `ngeohash.decode`: cell center and half-cell errors. -/
structure DecodedPoint where
  latitude : ℚ
  longitude : ℚ
  latitudeError : ℚ
  longitudeError : ℚ
deriving DecidableEq

/-- `ngeohash.decode`: center of the bounding box plus error terms. -/
def ngeohashDecode (g : String) : DecodedPoint :=
  let b := decodeBbox g
  let lat := (b.1 + b.2.1) / 2
  let lon := (b.2.2.1 + b.2.2.2) / 2
  ⟨lat, lon, b.2.1 - lat, b.2.2.2 - lon⟩

/-- Truncation toward zero, as JavaScript's `%` operator truncates. -/
def ratTrunc (q : ℚ) : ℤ := q.num.tdiv q.den

/-- JavaScript's remainder operator `a % b` on numbers (truncated division). -/
def jsMod (a b : ℚ) : ℚ := a - b * ((ratTrunc (a / b) : ℤ) : ℚ)

/-- ngeohash's `ensure_valid_lon`: wrap a longitude back into range. -/
def ensureValidLon (lon : ℚ) : ℚ :=
  if lon > 180 then -180 + jsMod lon 180
  else if lon < -180 then 180 + jsMod lon 180
  else lon

/-- ngeohash's `ensure_valid_lat`: clamp a latitude into range. -/
def ensureValidLat (lat : ℚ) : ℚ :=
  if lat > 90 then 90 else if lat < -90 then -90 else lat

/-- One neighbouring cell: decode, step one cell width in the given
direction, re-encode at the same precision (ngeohash `neighbor` and the
inner `encodeNeighbor` of `neighbors`). -/
def geohashNeighbor (g : String) (dirLat dirLon : ℚ) : String :=
  let d := ngeohashDecode g
  let nlat := ensureValidLat (d.latitude + dirLat * (d.latitudeError * 2))
  let nlon := ensureValidLon (d.longitude + dirLon * (d.longitudeError * 2))
  ngeohashEncode nlat nlon g.length

/-- `ngeohash.neighbors`: the eight surrounding cells, in the library's
fixed order N, NE, E, SE, S, SW, W, NW. -/
def ngeohashNeighbors (g : String) : List String :=
  [geohashNeighbor g 1 0, geohashNeighbor g 1 1, geohashNeighbor g 0 1,
   geohashNeighbor g (-1) 1, geohashNeighbor g (-1) 0, geohashNeighbor g (-1) (-1),
   geohashNeighbor g 0 (-1), geohashNeighbor g 1 (-1)]

/-- `getGeohashNeighbors` from `src/utils/geohash.ts`. -/
def getGeohashNeighbors (geohash : String) : List String :=
  ngeohashNeighbors geohash

/-- `getGeohashPrecisionForRadius` from `src/utils/geohash.ts`, with the
literal thresholds of the source (5000, 1250, 156, 39, 4.9, 1.2, 0.153,
0.038, compared with `>=` against the radius in meters). -/
def getGeohashPrecisionForRadius (radiusMeters : ℚ) : Nat :=
  if radiusMeters ≥ 5000 then 1
  else if radiusMeters ≥ 1250 then 2
  else if radiusMeters ≥ 156 then 3
  else if radiusMeters ≥ 39 then 4
  else if radiusMeters ≥ 4.9 then 5
  else if radiusMeters ≥ 1.2 then 6
  else if radiusMeters ≥ 0.153 then 7
  else if radiusMeters ≥ 0.038 then 8
  else 9

/-- `getGeohashPrefixesForSearch` from `src/utils/geohash.ts`.  For radii
at most 1000 m it returns the base geohash together with its eight
neighbours; otherwise a single coarser geohash at precision
`max(1, precision - 2)` (JavaScript subtraction, hence computed in `ℤ`). -/
def getGeohashPrefixesForSearch (latitude longitude radiusMeters : ℚ) : List String :=
  let precision := getGeohashPrecisionForRadius radiusMeters
  let baseGeohash := generateGeohash latitude longitude precision
  if radiusMeters ≤ 1000 then
    baseGeohash :: getGeohashNeighbors baseGeohash
  else
    let shorterPrecision := (max 1 ((precision : ℤ) - 2)).toNat
    [generateGeohash latitude longitude shorterPrecision]

/-- JavaScript's `Math.atan2`, defined from `Real.arctan` by quadrant. -/
noncomputable def atan2 (y x : ℝ) : ℝ :=
  if 0 < x then Real.arctan (y / x)
  else if x < 0 then
    (if 0 ≤ y then Real.arctan (y / x) + Real.pi else Real.arctan (y / x) - Real.pi)
  else
    (if 0 < y then Real.pi / 2 else if y < 0 then -(Real.pi / 2) else 0)

/-- `calculateDistance` from `src/utils/geohash.ts`: Haversine great-circle
distance in kilometers, Earth radius 6371 km.  The floating-point
transcendentals are modelled over `ℝ`. -/
noncomputable def calculateDistance (lat1 lon1 lat2 lon2 : ℚ) : ℝ :=
  let R : ℝ := 6371
  let dLat : ℝ := ((lat2 : ℝ) - (lat1 : ℝ)) * (Real.pi / 180)
  let dLon : ℝ := ((lon2 : ℝ) - (lon1 : ℝ)) * (Real.pi / 180)
  let a : ℝ := Real.sin (dLat / 2) * Real.sin (dLat / 2) +
    Real.cos ((lat1 : ℝ) * (Real.pi / 180)) * Real.cos ((lat2 : ℝ) * (Real.pi / 180)) *
      Real.sin (dLon / 2) * Real.sin (dLon / 2)
  let c : ℝ := 2 * atan2 (Real.sqrt a) (Real.sqrt (1 - a))
  R * c

/-! ## Data model of the search engine

Firestore documents are schemaless at runtime, so fields that the search
reads through optional chaining, or that a malformed document may lack, are
modelled with `Option`.  `request.data` of the callable is untyped (`any`),
so every validated request field is optional as well. -/

/-- Runtime shape of the `location` field of the search request. -/
structure LocationData where
  latitude : Option ℚ
  longitude : Option ℚ
deriving DecidableEq

/-- Runtime shape of `request.data` for `searchServiceProviders`. -/
structure SearchRequestData where
  serviceType : Option String
  location : Option LocationData
deriving DecidableEq

/-- Stored coordinates of a service area. -/
structure FsCoordinates where
  latitude : ℚ
  longitude : ℚ
deriving DecidableEq

/-- Stored `serviceArea` object (`ServiceAreaData`).  `coordinates` is
optional: a malformed document may lack it, which the search only discovers
when dereferencing `serviceArea.coordinates.latitude`. -/
structure FsServiceArea where
  fullAddress : String
  coordinates : Option FsCoordinates
  country : String
  countryCode : String
  radius : ℚ
  geohash : String
deriving DecidableEq

/-- Stored `workingPreferences` object (the `workingSchedule` field is never
read by the search and is omitted). -/
structure FsWorkingPreferences where
  serviceArea : Option FsServiceArea
deriving DecidableEq

/-- A document of the `serviceProviders` collection. -/
structure FsServiceProviderDoc where
  userId : String
  services : List (String × Bool)
  extraOptions : List (String × Bool)
  workingPreferences : Option FsWorkingPreferences
  isActive : Bool
  rating : Option ℚ
  totalJobs : Option Nat
deriving DecidableEq

/-- A document of the `users` collection (only the profile fields the
search joins in). -/
structure FsUserDoc where
  firstName : Option String
  lastName : Option String
  profileImage : Option String
  phone : Option String
deriving DecidableEq

/-- The document store: the two collections the search touches, as
association lists from document id to document data. -/
structure Firestore where
  serviceProviders : List (String × FsServiceProviderDoc)
  users : List (String × FsUserDoc)
deriving DecidableEq

/-- `ServiceProviderProfile` of the response. -/
structure ServiceProviderProfile where
  firstName : String
  lastName : String
  profileImage : Option String
  phone : String
deriving DecidableEq

/-- `ServiceProviderResult` of the response; `distance` is in meters,
rounded to an integer by `Math.round`. -/
structure ServiceProviderResult where
  id : String
  userId : String
  profile : ServiceProviderProfile
  services : List (String × Bool)
  extraOptions : List (String × Bool)
  workingPreferences : Option FsWorkingPreferences
  rating : Option ℚ
  totalJobs : Option Nat
  distance : ℤ
deriving DecidableEq

/-! ## The `searchServiceProviders` callable -/

/-- The value stored under the field path
`workingPreferences.serviceArea.geohash`, when the whole path exists. -/
def saGeohashField (d : FsServiceProviderDoc) : Option String :=
  (d.workingPreferences.bind FsWorkingPreferences.serviceArea).map FsServiceArea.geohash

/-- The Firestore query predicate of one range scan: active providers
offering the requested service whose stored geohash lies in the half-open
lexicographic range `[pfx, pfx ++ "~")`.  A document lacking any of the
filtered fields never matches. -/
def matchesQuery (serviceType pfx : String) (d : FsServiceProviderDoc) : Bool :=
  d.isActive && (d.services.lookup serviceType == some true) &&
    (match saGeohashField d with
     | some g => decide (pfx ≤ g) && decide (g < pfx ++ "~")
     | none => false)

/-- One range query against the `serviceProviders` collection. -/
def queryProviders (store : Firestore) (serviceType pfx : String) :
    List (String × FsServiceProviderDoc) :=
  store.serviceProviders.filter (fun p => matchesQuery serviceType pfx p.2)

/-- JavaScript's `Math.round`: nearest integer, halves toward `+∞`. -/
noncomputable def jsRound (x : ℝ) : ℤ := ⌊x + 1 / 2⌋

open Classical in
/-- Processing of one candidate document inside the scan loop: skip it when
`workingPreferences?.serviceArea` is not present; dereference
`serviceArea.coordinates.latitude` (a `TypeError` when `coordinates` is
absent); apply the distance filter; on acceptance join the user profile and
build the result record. -/
noncomputable def processDoc (qlat qlon : ℚ) (store : Firestore)
    (doc : String × FsServiceProviderDoc) : Except String (Option ServiceProviderResult) :=
  let d := doc.2
  match d.workingPreferences with
  | none => .ok none
  | some wp =>
    match wp.serviceArea with
    | none => .ok none
    | some sa =>
      match sa.coordinates with
      | none => .error "Cannot read properties of undefined (reading 'latitude')"
      | some c =>
        let distance := calculateDistance qlat qlon c.latitude c.longitude
        if distance ≤ (sa.radius : ℝ) / 1000 then
          let userData := store.users.lookup d.userId
          .ok (some
            { id := doc.1
              userId := d.userId
              profile :=
                { firstName := (userData.bind FsUserDoc.firstName).getD ""
                  lastName := (userData.bind FsUserDoc.lastName).getD ""
                  profileImage := userData.bind FsUserDoc.profileImage
                  phone := (userData.bind FsUserDoc.phone).getD "" }
              services := d.services
              extraOptions := d.extraOptions
              workingPreferences := d.workingPreferences
              rating := d.rating
              totalJobs := d.totalJobs
              distance := jsRound (distance * 1000) })
        else .ok none

/-- The sequential document loop of one range scan; a thrown `TypeError`
aborts the rest of the loop. -/
noncomputable def processDocs (qlat qlon : ℚ) (store : Firestore) :
    List (String × FsServiceProviderDoc) → Except String (List ServiceProviderResult)
  | [] => .ok []
  | doc :: docs =>
    match processDoc qlat qlon store doc with
    | .error e => .error e
    | .ok none => processDocs qlat qlon store docs
    | .ok (some r) =>
      match processDocs qlat qlon store docs with
      | .error e => .error e
      | .ok rs => .ok (r :: rs)

/-- The outer loop over the geohash range boundaries, accumulating the
`providers` array in scan order. -/
noncomputable def processPrefixes (qlat qlon : ℚ) (store : Firestore) (serviceType : String) :
    List String → Except String (List ServiceProviderResult)
  | [] => .ok []
  | p :: ps =>
    match processDocs qlat qlon store (queryProviders store serviceType p) with
    | .error e => .error e
    | .ok rs =>
      match processPrefixes qlat qlon store serviceType ps with
      | .error e => .error e
      | .ok rest => .ok (rs ++ rest)

/-- The fixed 50 km scan radius used only to select geohash range bounds. -/
def searchRadius : ℚ := 50000

/-- The comparator of `providers.sort((a, b) => a.distance - b.distance)`. -/
def byDistance (a b : ServiceProviderResult) : Bool :=
  decide (a.distance ≤ b.distance)

/-- The body of the `try` block of `searchServiceProviders`: the validation
`!serviceType || !location || !location.latitude || !location.longitude`
(any absent or falsy field throws `Invalid request parameters`), then the
range scans, refinement, join and sort.  The sort is modelled with a stable
merge sort, matching the stable ascending sort of the runtime. -/
noncomputable def searchServiceProvidersInner (req : SearchRequestData) (store : Firestore) :
    Except String (List ServiceProviderResult) :=
  match req.serviceType, req.location with
  | some s, some loc =>
    match loc.latitude, loc.longitude with
    | some la, some lo =>
      if s == "" || la == 0 || lo == 0 then .error "Invalid request parameters"
      else
        match processPrefixes la lo store s (getGeohashPrefixesForSearch la lo searchRadius) with
        | .error e => .error e
        | .ok providers => .ok (providers.mergeSort byDistance)
    | _, _ => .error "Invalid request parameters"
  | _, _ => .error "Invalid request parameters"

/-- `searchServiceProviders`: the `catch` wraps any thrown error message in
`Failed to search service providers: ...`. -/
noncomputable def searchServiceProviders (req : SearchRequestData) (store : Firestore) :
    Except String (List ServiceProviderResult) :=
  match searchServiceProvidersInner req store with
  | .ok r => .ok r
  | .error m => .error ("Failed to search service providers: " ++ m)

/-- A result record that passed the refinement filter: its own stored
service-area centre is within the declared radius of the query point, and
its `distance` field is the rounded Haversine distance in meters. -/
def acceptedResult (qlat qlon : ℚ) (r : ServiceProviderResult) : Prop :=
  ∃ wp sa c,
    r.workingPreferences = some wp ∧ wp.serviceArea = some sa ∧
    sa.coordinates = some c ∧
    calculateDistance qlat qlon c.latitude c.longitude ≤ (sa.radius : ℝ) / 1000 ∧
    r.distance = jsRound (calculateDistance qlat qlon c.latitude c.longitude * 1000)

/-- A provider document whose service area exists (so its geohash can match
the range query) but lacks the `coordinates` object. -/
def malformedServiceArea (d : FsServiceProviderDoc) : Prop :=
  ∃ wp sa, d.workingPreferences = some wp ∧ wp.serviceArea = some sa ∧
    sa.coordinates = none

/-! ## Models of the specification's wording

The following definitions translate the specification's words (not the
source); they exist to be compared with the source embeddings above. -/

/-- The error taxonomy named by the specification (§7). -/
inductive SpecError where
  | invalidCoordinate
  | invalidRequest
  | searchFailed
deriving DecidableEq

/-- Modelled from the spec, §4.1 `encode`: "No error conditions for
in-range inputs; out-of-range latitude/longitude yields fails with
`InvalidCoordinate`"; in-range behaviour is the geohash encoding itself. -/
def generateGeohashSpec (latitude longitude : ℚ) (precision : Nat) : Except SpecError String :=
  if latitude < -90 ∨ 90 < latitude ∨ longitude < -180 ∨ 180 < longitude then
    .error SpecError.invalidCoordinate
  else
    .ok (ngeohashEncode latitude longitude precision)

/-- Modelled from the spec, §4.1: the radius → precision table with its
literal thresholds, read as meters as the spec writes them
("5,000,000m→1; 1,250,000m→2; 156,000m→3; 39,000m→4; 4,900m→5; 1,200m→6;
153m→7; 38m→8; else→9"). -/
def specPrecisionForRadius (radiusMeters : ℚ) : Nat :=
  if radiusMeters ≥ 5000000 then 1
  else if radiusMeters ≥ 1250000 then 2
  else if radiusMeters ≥ 156000 then 3
  else if radiusMeters ≥ 39000 then 4
  else if radiusMeters ≥ 4900 then 5
  else if radiusMeters ≥ 1200 then 6
  else if radiusMeters ≥ 153 then 7
  else if radiusMeters ≥ 38 then 8
  else 9

/-! ## Concrete instances used by witnesses and counterexamples -/

/-- A user profile document. -/
def user1 : FsUserDoc := ⟨some "Ada", some "Obi", none, some "0555"⟩

/-- A well-formed service area centred at (50, 7) with a 5000 m radius.
`"u0uurq1"` is the precision-7 geohash of (50, 7) under the ngeohash
encoding, the value the settings-update handler stores. -/
def sa1 : FsServiceArea :=
  ⟨"1 Main Street", some ⟨50, 7⟩, "DE", "DE", 5000, "u0uurq1"⟩

/-- An active provider offering `classic-cleaning` with service area `sa1`. -/
def doc1 : FsServiceProviderDoc :=
  ⟨"u1", [("classic-cleaning", true)], [], some ⟨some sa1⟩, true, some 4, some 12⟩

/-- A malformed service area: the `geohash` field exists (so the record
matches the range query) but `coordinates` is absent. -/
def badSa : FsServiceArea :=
  ⟨"2 Main Street", none, "DE", "DE", 5000, "u0uurq1"⟩

/-- An otherwise-matching provider whose service area lacks coordinates. -/
def badDoc : FsServiceProviderDoc :=
  ⟨"u0", [("classic-cleaning", true)], [], some ⟨some badSa⟩, true, none, none⟩

/-- A store holding the single well-formed provider. -/
def store1 : Firestore := ⟨[("p1", doc1)], [("u1", user1)]⟩

/-- A store holding the malformed provider ahead of the well-formed one. -/
def store3 : Firestore := ⟨[("p0", badDoc), ("p1", doc1)], [("u1", user1)]⟩

/-- A valid search request issued at the provider's own centre. -/
def req1 : SearchRequestData := ⟨some "classic-cleaning", some ⟨some 50, some 7⟩⟩

/-- The result record the search builds for `doc1` under `req1`
(distance 0 m). -/
def r1 : ServiceProviderResult :=
  ⟨"p1", "u1", ⟨"Ada", "Obi", none, "0555"⟩, [("classic-cleaning", true)], [],
   some ⟨some sa1⟩, some 4, some 12, 0⟩

/-! ## Codec lemmas -/

/-- The encode bisection always produces exactly `n` bits. -/
theorem toBits_length (lat lon : ℚ) : ∀ (n : Nat) (isLon : Bool) (a b c d : ℚ),
    (toBits lat lon n isLon a b c d).length = n := by
  intro n
  induction n with
  | zero => intro isLon a b c d; rfl
  | succ n ih =>
    intro isLon a b c d
    simp only [toBits]
    split <;> split <;> simp [ih]

/-- Grouping a bit list of length `5 * k` yields `k` characters. -/
theorem chunk5_length : ∀ (k : Nat) (l : List Bool),
    l.length = 5 * k → (chunk5 l).length = k := by
  intro k
  induction k with
  | zero =>
    intro l hl
    rw [Nat.mul_zero, List.length_eq_zero] at hl
    subst hl
    rfl
  | succ k ih =>
    intro l hl
    rcases l with _ | ⟨b0, _ | ⟨b1, _ | ⟨b2, _ | ⟨b3, _ | ⟨b4, rest⟩⟩⟩⟩⟩ <;>
      simp only [List.length_cons, List.length_nil] at hl <;> try omega
    have hrest : rest.length = 5 * k := by omega
    simp [chunk5, ih rest hrest]

/-- Claim C2, counterexample: at radius 10000 m the source returns
precision 1 while the specification's table (thresholds read in meters as
written) returns 5, so the claimed table does not describe the code. -/
theorem getGeohashPrecisionForRadius_spec_table_cex :
    getGeohashPrecisionForRadius 10000 = 1 ∧ specPrecisionForRadius 10000 = 5 ∧
      getGeohashPrecisionForRadius 10000 ≠ specPrecisionForRadius 10000 := by
  decide

/-- Claim C2, amended: `getGeohashPrecisionForRadius` follows the step
table with the source's literal thresholds, which are the specification's
numbers divided by 1000 (5000 m → 1; 1250 m → 2; 156 m → 3; 39 m → 4;
4.9 m → 5; 1.2 m → 6; 0.153 m → 7; 0.038 m → 8; otherwise 9), for every
non-negative radius. -/
theorem getGeohashPrecisionForRadius_table : ∀ r : ℚ, 0 ≤ r →
    (5000 ≤ r → getGeohashPrecisionForRadius r = 1) ∧
    (1250 ≤ r ∧ r < 5000 → getGeohashPrecisionForRadius r = 2) ∧
    (156 ≤ r ∧ r < 1250 → getGeohashPrecisionForRadius r = 3) ∧
    (39 ≤ r ∧ r < 156 → getGeohashPrecisionForRadius r = 4) ∧
    (4.9 ≤ r ∧ r < 39 → getGeohashPrecisionForRadius r = 5) ∧
    (1.2 ≤ r ∧ r < 4.9 → getGeohashPrecisionForRadius r = 6) ∧
    (0.153 ≤ r ∧ r < 1.2 → getGeohashPrecisionForRadius r = 7) ∧
    (0.038 ≤ r ∧ r < 0.153 → getGeohashPrecisionForRadius r = 8) ∧
    (r < 0.038 → getGeohashPrecisionForRadius r = 9) := by
  intro r hr
  refine ⟨?_, ?_, ?_, ?_, ?_, ?_, ?_, ?_, ?_⟩ <;> intro h <;>
    (try obtain ⟨h, h2⟩ := h) <;> unfold getGeohashPrecisionForRadius <;>
    (repeat' split) <;> first | rfl | linarith

/-- Witness for the amended C2 table at radius 10000 m. -/
theorem getGeohashPrecisionForRadius_table_witness :
    (0 : ℚ) ≤ 10000 ∧ getGeohashPrecisionForRadius 10000 = 1 :=
  ⟨by norm_num, (getGeohashPrecisionForRadius_table 10000 (by norm_num)).1 (by norm_num)⟩

set_option maxHeartbeats 1000000 in
/-- Upper bounds for the precision table: a radius above a threshold
yields a precision at most the threshold's level. -/
theorem precisionUpper : ∀ r : ℚ,
    (5000 ≤ r → getGeohashPrecisionForRadius r ≤ 1) ∧
    (1250 ≤ r → getGeohashPrecisionForRadius r ≤ 2) ∧
    (156 ≤ r → getGeohashPrecisionForRadius r ≤ 3) ∧
    (39 ≤ r → getGeohashPrecisionForRadius r ≤ 4) ∧
    (4.9 ≤ r → getGeohashPrecisionForRadius r ≤ 5) ∧
    (1.2 ≤ r → getGeohashPrecisionForRadius r ≤ 6) ∧
    (0.153 ≤ r → getGeohashPrecisionForRadius r ≤ 7) ∧
    (0.038 ≤ r → getGeohashPrecisionForRadius r ≤ 8) := by
  intro r
  refine ⟨?_, ?_, ?_, ?_, ?_, ?_, ?_, ?_⟩ <;> intro h <;>
    unfold getGeohashPrecisionForRadius <;>
    (repeat' split) <;> first | decide | linarith

set_option maxHeartbeats 1000000 in
/-- Lower bounds for the precision table: a radius below a threshold
yields a precision beyond the threshold's level. -/
theorem precisionLower : ∀ r : ℚ,
    (r < 5000 → 2 ≤ getGeohashPrecisionForRadius r) ∧
    (r < 1250 → 3 ≤ getGeohashPrecisionForRadius r) ∧
    (r < 156 → 4 ≤ getGeohashPrecisionForRadius r) ∧
    (r < 39 → 5 ≤ getGeohashPrecisionForRadius r) ∧
    (r < 4.9 → 6 ≤ getGeohashPrecisionForRadius r) ∧
    (r < 1.2 → 7 ≤ getGeohashPrecisionForRadius r) ∧
    (r < 0.153 → 8 ≤ getGeohashPrecisionForRadius r) ∧
    (r < 0.038 → 9 ≤ getGeohashPrecisionForRadius r) := by
  intro r
  refine ⟨?_, ?_, ?_, ?_, ?_, ?_, ?_, ?_⟩ <;> intro h <;>
    unfold getGeohashPrecisionForRadius <;>
    (repeat' split) <;> first | decide | linarith

/-- The returned precision is always at least 1. -/
theorem onePrecision : ∀ r : ℚ, 1 ≤ getGeohashPrecisionForRadius r := by
  intro r
  unfold getGeohashPrecisionForRadius
  (repeat' split) <;> decide

/-- Claim C8: `getGeohashPrecisionForRadius` is non-increasing as the
radius increases. -/
theorem getGeohashPrecisionForRadius_monotone : ∀ r1 r2 : ℚ, r1 ≤ r2 →
    getGeohashPrecisionForRadius r2 ≤ getGeohashPrecisionForRadius r1 := by
  intro r1 r2 h
  rcases le_or_lt 5000 r2 with h2 | h2
  · exact le_trans ((precisionUpper r2).1 h2) (onePrecision r1)
  · rcases le_or_lt 1250 r2 with h3 | h3
    · exact le_trans ((precisionUpper r2).2.1 h3) ((precisionLower r1).1 (by linarith))
    · rcases le_or_lt 156 r2 with h4 | h4
      · exact le_trans ((precisionUpper r2).2.2.1 h4) ((precisionLower r1).2.1 (by linarith))
      · rcases le_or_lt 39 r2 with h5 | h5
        · exact le_trans ((precisionUpper r2).2.2.2.1 h5)
            ((precisionLower r1).2.2.1 (by linarith))
        · rcases le_or_lt 4.9 r2 with h6 | h6
          · exact le_trans ((precisionUpper r2).2.2.2.2.1 h6)
              ((precisionLower r1).2.2.2.1 (by linarith))
          · rcases le_or_lt 1.2 r2 with h7 | h7
            · exact le_trans ((precisionUpper r2).2.2.2.2.2.1 h7)
                ((precisionLower r1).2.2.2.2.1 (by linarith))
            · rcases le_or_lt 0.153 r2 with h8 | h8
              · exact le_trans ((precisionUpper r2).2.2.2.2.2.2.1 h8)
                  ((precisionLower r1).2.2.2.2.2.1 (by linarith))
              · rcases le_or_lt 0.038 r2 with h9 | h9
                · exact le_trans ((precisionUpper r2).2.2.2.2.2.2.2 h9)
                    ((precisionLower r1).2.2.2.2.2.2.1 (by linarith))
                · have hu : getGeohashPrecisionForRadius r2 ≤ 9 := by
                    unfold getGeohashPrecisionForRadius
                    (repeat' split) <;> decide
                  have hl : 9 ≤ getGeohashPrecisionForRadius r1 :=
                    (precisionLower r1).2.2.2.2.2.2.2 (by linarith)
                  omega

/-- Witness for C8 at radii 100 m and 200 m. -/
theorem getGeohashPrecisionForRadius_monotone_witness :
    (100 : ℚ) ≤ 200 ∧
    getGeohashPrecisionForRadius 200 ≤ getGeohashPrecisionForRadius 100 :=
  ⟨by norm_num, getGeohashPrecisionForRadius_monotone 100 200 (by norm_num)⟩

/-- Claim C5: for radii at most 1000 m the search boundaries are exactly
the base geohash at the derived precision followed by its eight neighbours
(hence the base geohash is a member and the set has nine elements);
otherwise a single geohash at precision `max(1, precision - 2)`. -/
theorem getGeohashPrefixesForSearch_cases : ∀ (la lo r : ℚ),
    (r ≤ 1000 →
      getGeohashPrefixesForSearch la lo r =
        generateGeohash la lo (getGeohashPrecisionForRadius r) ::
          getGeohashNeighbors (generateGeohash la lo (getGeohashPrecisionForRadius r)) ∧
      generateGeohash la lo (getGeohashPrecisionForRadius r) ∈
        getGeohashPrefixesForSearch la lo r ∧
      (getGeohashPrefixesForSearch la lo r).length = 9) ∧
    (1000 < r →
      getGeohashPrefixesForSearch la lo r =
        [generateGeohash la lo
          ((max 1 ((getGeohashPrecisionForRadius r : ℤ) - 2)).toNat)]) := by
  intro la lo r
  constructor
  · intro h
    have he : getGeohashPrefixesForSearch la lo r =
        generateGeohash la lo (getGeohashPrecisionForRadius r) ::
          getGeohashNeighbors (generateGeohash la lo (getGeohashPrecisionForRadius r)) := by
      unfold getGeohashPrefixesForSearch
      rw [if_pos h]
    refine ⟨he, ?_, ?_⟩
    · rw [he]; exact List.mem_cons_self _ _
    · rw [he]; rfl
  · intro h
    unfold getGeohashPrefixesForSearch
    rw [if_neg (not_le.mpr h)]

/-- Witness for C5 at (50, 7) and radius 500 m. -/
theorem getGeohashPrefixesForSearch_cases_witness :
    ((500 : ℚ) ≤ 1000) ∧
    (getGeohashPrefixesForSearch 50 7 500 =
      generateGeohash 50 7 (getGeohashPrecisionForRadius 500) ::
        getGeohashNeighbors (generateGeohash 50 7 (getGeohashPrecisionForRadius 500)) ∧
    generateGeohash 50 7 (getGeohashPrecisionForRadius 500) ∈
      getGeohashPrefixesForSearch 50 7 500 ∧
    (getGeohashPrefixesForSearch 50 7 500).length = 9) :=
  ⟨by norm_num, (getGeohashPrefixesForSearch_cases 50 7 500).1 (by norm_num)⟩

/-- Claim C9, counterexample: at the out-of-range latitude 100 the source
encoder returns a geohash normally whereas the specification requires an
`InvalidCoordinate` failure — no validation exists in the code path. -/
theorem generateGeohash_out_of_range_no_error_cex :
    Except.ok (generateGeohash 100 0 7) ≠ generateGeohashSpec 100 0 7 := by
  have h : generateGeohashSpec 100 0 7 = Except.error SpecError.invalidCoordinate := by
    unfold generateGeohashSpec
    rw [if_pos]
    right; left; norm_num
  rw [h]
  intro hc
  exact Except.noConfusion hc

/-- Claim C9, amended: `generateGeohash` is a total deterministic
function that raises no error for any input whatsoever — for positive
precision it always returns a geohash of exactly `precision` characters
(also for out-of-range coordinates, which are bisected without
validation), and on in-range inputs it agrees with the specification's
encode model. -/
theorem generateGeohash_total_deterministic : ∀ (la lo : ℚ) (p : Nat),
    (0 < p → (generateGeohash la lo p).length = p) ∧
    (-90 ≤ la → la ≤ 90 → -180 ≤ lo → lo ≤ 180 →
      Except.ok (generateGeohash la lo p) = generateGeohashSpec la lo p) := by
  intro la lo p
  constructor
  · intro hp
    unfold generateGeohash ngeohashEncode
    rw [if_neg (Nat.pos_iff_ne_zero.mp hp)]
    have h1 := toBits_length la lo (5 * p) true (-90) 90 (-180) 180
    have h2 := chunk5_length p _ h1
    simpa [String.length] using h2
  · intro h1 h2 h3 h4
    unfold generateGeohashSpec generateGeohash
    rw [if_neg]
    push_neg
    exact ⟨by linarith, by linarith, by linarith, by linarith⟩

/-- Witness for the amended C9 at (50, 7), precision 7. -/
theorem generateGeohash_total_deterministic_witness :
    (0 < 7 ∧ (generateGeohash 50 7 7).length = 7) ∧
    Except.ok (generateGeohash 50 7 7) = generateGeohashSpec 50 7 7 :=
  ⟨⟨by norm_num, (generateGeohash_total_deterministic 50 7 7).1 (by norm_num)⟩,
    (generateGeohash_total_deterministic 50 7 7).2
      (by norm_num) (by norm_num) (by norm_num) (by norm_num)⟩

/-! ## Concrete evaluation of the search on the witness instances -/

/-- The Haversine distance from a point to itself is zero. -/
theorem calculateDistance_self (la lo : ℚ) : calculateDistance la lo la lo = 0 := by
  unfold calculateDistance atan2
  norm_num

/-- At the fixed 50 km scan radius the search always scans exactly one
range boundary: the precision-1 geohash of the query point. -/
theorem prefixesAt50km (la lo : ℚ) :
    getGeohashPrefixesForSearch la lo searchRadius = [generateGeohash la lo 1] := by
  have hp : getGeohashPrecisionForRadius searchRadius = 1 := by decide
  unfold getGeohashPrefixesForSearch
  rw [hp]
  norm_num [searchRadius]

/-- The precision-1 geohash of the witness query point (50, 7). -/
theorem generateGeohash_center1 : generateGeohash 50 7 1 = "u" := by
  unfold generateGeohash ngeohashEncode
  norm_num [toBits, chunk5, base32Char, base32Codes]

/-- The well-formed witness document matches the range query under the
`u` boundary. -/
theorem matchesEval1 : matchesQuery "classic-cleaning" "u" doc1 = true := by
  simp [matchesQuery, doc1, sa1, saGeohashField]
  decide

/-- The range query on the one-provider store returns that provider. -/
theorem queryEval1 : queryProviders store1 "classic-cleaning" "u" = [("p1", doc1)] := by
  simp [queryProviders, store1, List.filter, matchesEval1]

/-- Refinement of the witness document: distance zero, accepted, joined
with the stored user profile. -/
theorem processDocEval1 : processDoc 50 7 store1 ("p1", doc1) = .ok (some r1) := by
  unfold processDoc
  simp only [doc1, sa1, user1, r1]
  rw [calculateDistance_self]
  rw [if_pos (by norm_num : (0 : ℝ) ≤ ((5000 : ℚ) : ℝ) / 1000)]
  simp [store1, user1, jsRound]
  norm_num

/-- Scan loop over the single candidate. -/
theorem processDocsEval1 : processDocs 50 7 store1 [("p1", doc1)] = .ok [r1] := by
  simp [processDocs, processDocEval1]

/-- Outer loop over the single range boundary. -/
theorem processPrefixesEval1 :
    processPrefixes 50 7 store1 "classic-cleaning" ["u"] = .ok [r1] := by
  simp [processPrefixes, queryEval1, processDocsEval1]

/-- Full evaluation of the search on the well-formed one-provider store:
the provider is returned at distance 0. -/
theorem searchEval1 : searchServiceProviders req1 store1 = .ok [r1] := by
  unfold searchServiceProviders searchServiceProvidersInner
  simp only [req1]
  rw [if_neg (by simp [beq_iff_eq])]
  rw [prefixesAt50km, generateGeohash_center1, processPrefixesEval1]
  simp [List.mergeSort_singleton]

/-- The malformed witness document also matches the range query. -/
theorem matchesEvalBad : matchesQuery "classic-cleaning" "u" badDoc = true := by
  simp [matchesQuery, badDoc, badSa, saGeohashField]
  decide

/-- The range query on the two-provider store returns both candidates,
the malformed one first. -/
theorem queryEval3 :
    queryProviders store3 "classic-cleaning" "u" = [("p0", badDoc), ("p1", doc1)] := by
  simp [queryProviders, store3, List.filter, matchesEvalBad, matchesEval1]

/-! ## Structural lemmas about the search pipeline -/

/-- An accepted record comes out of `processDoc` with its own service
area satisfying the distance filter and the rounded distance stored. -/
theorem processDoc_ok_some (qlat qlon : ℚ) (store : Firestore)
    (doc : String × FsServiceProviderDoc) (r : ServiceProviderResult)
    (h : processDoc qlat qlon store doc = .ok (some r)) :
    acceptedResult qlat qlon r ∧ r.id = doc.1 := by
  simp only [processDoc] at h
  rcases hw : doc.2.workingPreferences with _ | wp
  · simp only [hw] at h; simp at h
  · simp only [hw] at h
    rcases hs : wp.serviceArea with _ | sa
    · simp only [hs] at h; simp at h
    · simp only [hs] at h
      rcases hc : sa.coordinates with _ | c
      · simp only [hc] at h; simp at h
      · simp only [hc] at h
        split at h
        · rename_i hdist
          simp only [Except.ok.injEq, Option.some.injEq] at h
          subst h
          exact ⟨⟨wp, sa, c, rfl, hs, hc, hdist, rfl⟩, rfl⟩
        · simp at h

/-- A document whose service area lacks coordinates throws the
`TypeError` of the unguarded dereference. -/
theorem processDoc_malformed (qlat qlon : ℚ) (store : Firestore)
    (doc : String × FsServiceProviderDoc) (hm : malformedServiceArea doc.2) :
    processDoc qlat qlon store doc =
      .error "Cannot read properties of undefined (reading 'latitude')" := by
  obtain ⟨wp, sa, hw, hs, hc⟩ := hm
  simp only [processDoc, hw, hs, hc]

/-- Every other document is processed without an error. -/
theorem processDoc_not_error (qlat qlon : ℚ) (store : Firestore)
    (doc : String × FsServiceProviderDoc) (hm : ¬ malformedServiceArea doc.2) :
    ∃ o, processDoc qlat qlon store doc = .ok o := by
  simp only [processDoc]
  rcases hw : doc.2.workingPreferences with _ | wp
  · simp only [hw]; exact ⟨none, rfl⟩
  · simp only [hw]
    rcases hs : wp.serviceArea with _ | sa
    · simp only [hs]; exact ⟨none, rfl⟩
    · simp only [hs]
      rcases hc : sa.coordinates with _ | c
      · exact absurd ⟨wp, sa, hw, hs, hc⟩ hm
      · simp only [hc]
        split
        · exact ⟨some _, rfl⟩
        · exact ⟨none, rfl⟩

/-- Every record produced by a scan loop is an accepted record. -/
theorem processDocs_sound (qlat qlon : ℚ) (store : Firestore) :
    ∀ (docs : List (String × FsServiceProviderDoc)) (rs : List ServiceProviderResult),
      processDocs qlat qlon store docs = .ok rs →
      ∀ r ∈ rs, acceptedResult qlat qlon r := by
  intro docs
  induction docs with
  | nil =>
    intro rs h r hr
    simp only [processDocs, Except.ok.injEq] at h
    subst h
    simp at hr
  | cons doc docs ih =>
    intro rs h r hr
    simp only [processDocs] at h
    rcases hpd : processDoc qlat qlon store doc with e | o
    · rw [hpd] at h; simp at h
    · rw [hpd] at h
      rcases o with _ | r0
      · exact ih rs h r hr
      · rcases hrec : processDocs qlat qlon store docs with e | rs0
        · rw [hrec] at h; simp at h
        · rw [hrec] at h
          simp only [Except.ok.injEq] at h
          subst h
          rcases List.mem_cons.mp hr with h1 | h1
          · subst h1
            exact (processDoc_ok_some qlat qlon store doc r hpd).1
          · exact ih rs0 hrec r h1

/-- The ids of the records produced by a scan loop form a sublist of the
scanned document ids (each candidate contributes at most one record). -/
theorem processDocs_ids (qlat qlon : ℚ) (store : Firestore) :
    ∀ (docs : List (String × FsServiceProviderDoc)) (rs : List ServiceProviderResult),
      processDocs qlat qlon store docs = .ok rs →
      (rs.map ServiceProviderResult.id).Sublist (docs.map Prod.fst) := by
  intro docs
  induction docs with
  | nil =>
    intro rs h
    simp only [processDocs, Except.ok.injEq] at h
    subst h
    simp
  | cons doc docs ih =>
    intro rs h
    simp only [processDocs] at h
    rcases hpd : processDoc qlat qlon store doc with e | o
    · rw [hpd] at h; simp at h
    · rw [hpd] at h
      rcases o with _ | r0
      · exact (ih rs h).trans (List.sublist_cons_self _ _)
      · rcases hrec : processDocs qlat qlon store docs with e | rs0
        · rw [hrec] at h; simp at h
        · rw [hrec] at h
          simp only [Except.ok.injEq] at h
          subst h
          have hid : r0.id = doc.1 := (processDoc_ok_some qlat qlon store doc r0 hpd).2
          simp only [List.map_cons, hid]
          exact List.Sublist.cons₂ _ (ih rs0 hrec)

/-- A malformed candidate anywhere in the scan aborts the whole loop with
the dereference `TypeError`. -/
theorem processDocs_error_of_malformed (qlat qlon : ℚ) (store : Firestore) :
    ∀ (docs : List (String × FsServiceProviderDoc)),
      (∃ d ∈ docs, malformedServiceArea d.2) →
      processDocs qlat qlon store docs =
        .error "Cannot read properties of undefined (reading 'latitude')" := by
  intro docs
  induction docs with
  | nil => intro h; simp at h
  | cons doc docs ih =>
    intro h
    simp only [processDocs]
    by_cases hmal : malformedServiceArea doc.2
    · rw [processDoc_malformed qlat qlon store doc hmal]
    · obtain ⟨o, ho⟩ := processDoc_not_error qlat qlon store doc hmal
      rw [ho]
      rcases h with ⟨d, hd, hdm⟩
      rcases List.mem_cons.mp hd with h1 | h1
      · exact absurd (h1 ▸ hdm) hmal
      · have := ih ⟨d, h1, hdm⟩
        rcases o with _ | r0
        · exact this
        · rw [this]

/-- Every record produced across the range boundaries is accepted. -/
theorem processPrefixes_sound (qlat qlon : ℚ) (store : Firestore) (serviceType : String) :
    ∀ (ps : List String) (rs : List ServiceProviderResult),
      processPrefixes qlat qlon store serviceType ps = .ok rs →
      ∀ r ∈ rs, acceptedResult qlat qlon r := by
  intro ps
  induction ps with
  | nil =>
    intro rs h r hr
    simp only [processPrefixes, Except.ok.injEq] at h
    subst h
    simp at hr
  | cons p ps ih =>
    intro rs h r hr
    simp only [processPrefixes] at h
    rcases hd : processDocs qlat qlon store (queryProviders store serviceType p) with e | rs1
    · rw [hd] at h; simp at h
    · rw [hd] at h
      rcases hrec : processPrefixes qlat qlon store serviceType ps with e | rs2
      · rw [hrec] at h; simp at h
      · rw [hrec] at h
        simp only [Except.ok.injEq] at h
        subst h
        rcases List.mem_append.mp hr with h1 | h1
        · exact processDocs_sound qlat qlon store _ rs1 hd r h1
        · exact ih rs2 hrec r h1

/-- With a single range boundary, the outer loop returns exactly the
records of its one scan. -/
theorem processPrefixes_one (qlat qlon : ℚ) (store : Firestore) (serviceType p : String)
    (rs : List ServiceProviderResult)
    (h : processPrefixes qlat qlon store serviceType [p] = .ok rs) :
    processDocs qlat qlon store (queryProviders store serviceType p) = .ok rs := by
  simp only [processPrefixes] at h
  rcases hd : processDocs qlat qlon store (queryProviders store serviceType p) with e | rs1
  · rw [hd] at h; simp at h
  · rw [hd] at h
    simp only [Except.ok.injEq] at h
    subst h
    simp

/-- A failing scan of a single boundary propagates its error. -/
theorem processPrefixes_error_one (qlat qlon : ℚ) (store : Firestore) (serviceType p : String)
    (e : String)
    (h : processDocs qlat qlon store (queryProviders store serviceType p) = .error e) :
    processPrefixes qlat qlon store serviceType [p] = .error e := by
  simp only [processPrefixes, h]

/-- The sort comparator is transitive. -/
theorem byDistance_trans : ∀ a b c : ServiceProviderResult,
    byDistance a b = true → byDistance b c = true → byDistance a c = true := by
  intro a b c
  simp only [byDistance, decide_eq_true_eq]
  omega

/-- The sort comparator is total. -/
theorem byDistance_total : ∀ a b : ServiceProviderResult,
    (byDistance a b || byDistance b a) = true := by
  intro a b
  simp only [byDistance, Bool.or_eq_true, decide_eq_true_eq]
  omega

/-- Any successful search comes from a validated request, a successful
multi-boundary scan, and the final sort of its records. -/
theorem search_ok_shape (req : SearchRequestData) (store : Firestore)
    (res : List ServiceProviderResult)
    (h : searchServiceProviders req store = .ok res) :
    ∃ (s : String) (la lo : ℚ) (providers : List ServiceProviderResult),
      req.serviceType = some s ∧ req.location = some ⟨some la, some lo⟩ ∧
      processPrefixes la lo store s (getGeohashPrefixesForSearch la lo searchRadius) =
        .ok providers ∧
      res = providers.mergeSort byDistance := by
  unfold searchServiceProviders at h
  rcases hi : searchServiceProvidersInner req store with e | r0
  · rw [hi] at h; simp at h
  · rw [hi] at h
    simp only [Except.ok.injEq] at h
    subst h
    unfold searchServiceProvidersInner at hi
    rcases req with ⟨st, loc⟩
    rcases st with _ | s
    · simp at hi
    · rcases loc with _ | ⟨lla, llo⟩
      · simp at hi
      · rcases lla with _ | la
        · simp at hi
        · rcases llo with _ | lo
          · simp at hi
          · simp only at hi
            split at hi
            · simp at hi
            · rcases hp : processPrefixes la lo store s
                  (getGeohashPrefixesForSearch la lo searchRadius) with e | providers
              · rw [hp] at hi; simp at hi
              · rw [hp] at hi
                simp only [Except.ok.injEq] at hi
                exact ⟨s, la, lo, providers, rfl, rfl, hp, hi.symm⟩

/-! ## Search engine claims -/

/-- Claim C1: every record in a successful search result lies within its
own declared service radius of the query point — the Haversine distance
(km) between the query coordinate and the record's service-area centre is
at most `radius / 1000`; no record failing the inequality ever appears. -/
theorem searchServiceProviders_refinement_correct :
    ∀ (req : SearchRequestData) (store : Firestore) (res : List ServiceProviderResult),
      searchServiceProviders req store = .ok res →
      ∀ r ∈ res, ∃ (la lo : ℚ) (wp : FsWorkingPreferences) (sa : FsServiceArea)
        (c : FsCoordinates),
        req.location = some ⟨some la, some lo⟩ ∧
        r.workingPreferences = some wp ∧ wp.serviceArea = some sa ∧
        sa.coordinates = some c ∧
        calculateDistance la lo c.latitude c.longitude ≤ (sa.radius : ℝ) / 1000 := by
  intro req store res h r hr
  obtain ⟨s, la, lo, providers, hst, hloc, hp, hres⟩ := search_ok_shape req store res h
  subst hres
  have hr2 : r ∈ providers := (List.mergeSort_perm providers byDistance).mem_iff.mp hr
  obtain ⟨wp, sa, c, hwp, hsa, hc, hdist, _⟩ :=
    processPrefixes_sound la lo store s _ providers hp r hr2
  exact ⟨la, lo, wp, sa, c, hloc, hwp, hsa, hc, hdist⟩

/-- Witness for C1 on the one-provider store: the returned record
satisfies the distance inequality. -/
theorem searchServiceProviders_refinement_correct_witness :
    ∃ (la lo : ℚ) (wp : FsWorkingPreferences) (sa : FsServiceArea) (c : FsCoordinates),
      req1.location = some ⟨some la, some lo⟩ ∧
      r1.workingPreferences = some wp ∧ wp.serviceArea = some sa ∧
      sa.coordinates = some c ∧
      calculateDistance la lo c.latitude c.longitude ≤ (sa.radius : ℝ) / 1000 :=
  searchServiceProviders_refinement_correct req1 store1 [r1] searchEval1 r1 (by simp)

/-- Claim C6: a successful search result is sorted non-decreasing in the
`distance` field, and each record's `distance` is the Haversine distance
in kilometers times 1000, rounded to the nearest integer. -/
theorem searchServiceProviders_sorted_by_distance :
    ∀ (req : SearchRequestData) (store : Firestore) (res : List ServiceProviderResult),
      searchServiceProviders req store = .ok res →
      List.Pairwise (fun a b => a.distance ≤ b.distance) res ∧
      ∀ r ∈ res, ∃ (la lo : ℚ) (wp : FsWorkingPreferences) (sa : FsServiceArea)
        (c : FsCoordinates),
        req.location = some ⟨some la, some lo⟩ ∧
        r.workingPreferences = some wp ∧ wp.serviceArea = some sa ∧
        sa.coordinates = some c ∧
        r.distance = jsRound (calculateDistance la lo c.latitude c.longitude * 1000) := by
  intro req store res h
  obtain ⟨s, la, lo, providers, hst, hloc, hp, hres⟩ := search_ok_shape req store res h
  subst hres
  constructor
  · have hs := List.sorted_mergeSort byDistance_trans byDistance_total providers
    exact hs.imp (fun hab => by simpa [byDistance, decide_eq_true_eq] using hab)
  · intro r hr
    have hr2 : r ∈ providers := (List.mergeSort_perm providers byDistance).mem_iff.mp hr
    obtain ⟨wp, sa, c, hwp, hsa, hc, _, hd⟩ :=
      processPrefixes_sound la lo store s _ providers hp r hr2
    exact ⟨la, lo, wp, sa, c, hloc, hwp, hsa, hc, hd⟩

/-- Witness for C6 on the one-provider store: the result is sorted. -/
theorem searchServiceProviders_sorted_by_distance_witness :
    List.Pairwise (fun a b : ServiceProviderResult => a.distance ≤ b.distance) [r1] :=
  (searchServiceProviders_sorted_by_distance req1 store1 [r1] searchEval1).1

/-- Claim C4: when the store's provider document ids are distinct (as
Firestore guarantees for a collection), each provider identity occurs at
most once in the search result, for every input and store state. -/
theorem searchServiceProviders_ids_nodup :
    ∀ (req : SearchRequestData) (store : Firestore) (res : List ServiceProviderResult),
      (store.serviceProviders.map Prod.fst).Nodup →
      searchServiceProviders req store = .ok res →
      (res.map ServiceProviderResult.id).Nodup := by
  intro req store res hnd h
  obtain ⟨s, la, lo, providers, hst, hloc, hp, hres⟩ := search_ok_shape req store res h
  rw [prefixesAt50km la lo] at hp
  have hd := processPrefixes_one la lo store s _ providers hp
  have hsub := processDocs_ids la lo store _ providers hd
  have hq : (queryProviders store s (generateGeohash la lo 1)).map Prod.fst
      |>.Sublist (store.serviceProviders.map Prod.fst) :=
    List.Sublist.map _ (List.filter_sublist _)
  have hnodup : (providers.map ServiceProviderResult.id).Nodup := (hsub.trans hq).nodup hnd
  subst hres
  have hperm := (List.mergeSort_perm providers byDistance).map ServiceProviderResult.id
  exact hperm.symm.nodup hnodup

/-- Witness for C4 on the one-provider store. -/
theorem searchServiceProviders_ids_nodup_witness :
    (([r1]).map ServiceProviderResult.id).Nodup :=
  searchServiceProviders_ids_nodup req1 store1 [r1] (by simp [store1]) searchEval1

/-- Claim C3, counterexample: on a store whose range query returns a
malformed candidate (service area present, coordinates absent) ahead of a
well-formed matching provider, the search does not skip the malformed
record — it aborts with a wrapped `TypeError` and returns no results. -/
theorem searchServiceProviders_malformed_aborts_cex :
    searchServiceProviders req1 store3 =
      .error "Failed to search service providers: Cannot read properties of undefined (reading 'latitude')" := by
  unfold searchServiceProviders searchServiceProvidersInner
  simp only [req1]
  rw [if_neg (by simp [beq_iff_eq])]
  rw [prefixesAt50km, generateGeohash_center1]
  have hbad : processDoc 50 7 store3 ("p0", badDoc) =
      .error "Cannot read properties of undefined (reading 'latitude')" := by
    simp [processDoc, badDoc, badSa]
  simp [processPrefixes, queryEval3, processDocs, hbad]

/-- Claim C3, amended: a candidate whose service area lacks coordinates
causes the whole search to fail with the wrapped dereference `TypeError`
(no partial results), for every valid request and store; only candidates
entirely lacking a service area would be skipped silently. -/
theorem searchServiceProviders_malformed_aborts :
    ∀ (s : String) (la lo : ℚ) (store : Firestore),
      s ≠ "" → la ≠ 0 → lo ≠ 0 →
      (∃ d ∈ queryProviders store s (generateGeohash la lo 1), malformedServiceArea d.2) →
      searchServiceProviders ⟨some s, some ⟨some la, some lo⟩⟩ store =
        .error "Failed to search service providers: Cannot read properties of undefined (reading 'latitude')" := by
  intro s la lo store hs hla hlo hmal
  unfold searchServiceProviders searchServiceProvidersInner
  simp only
  have hcond : (s == "" || la == 0 || lo == 0) = false := by
    simp [hs, hla, hlo]
  rw [hcond]
  simp only [Bool.false_eq_true, if_false]
  rw [prefixesAt50km]
  rw [processPrefixes_error_one la lo store s (generateGeohash la lo 1) _
    (processDocs_error_of_malformed la lo store _ hmal)]
  simp

/-- Witness for the amended C3 on the two-provider store. -/
theorem searchServiceProviders_malformed_aborts_witness :
    ("classic-cleaning" : String) ≠ "" ∧ (50 : ℚ) ≠ 0 ∧ (7 : ℚ) ≠ 0 ∧
    (∃ d ∈ queryProviders store3 "classic-cleaning" (generateGeohash 50 7 1),
      malformedServiceArea d.2) ∧
    searchServiceProviders ⟨some "classic-cleaning", some ⟨some 50, some 7⟩⟩ store3 =
      .error "Failed to search service providers: Cannot read properties of undefined (reading 'latitude')" := by
  have hmem : ∃ d ∈ queryProviders store3 "classic-cleaning" (generateGeohash 50 7 1),
      malformedServiceArea d.2 := by
    rw [generateGeohash_center1, queryEval3]
    exact ⟨("p0", badDoc), by simp, ⟨⟨some badSa⟩, badSa, rfl, rfl, rfl⟩⟩
  refine ⟨by simp, by norm_num, by norm_num, hmem, ?_⟩
  exact searchServiceProviders_malformed_aborts "classic-cleaning" 50 7 store3
    (by simp) (by norm_num) (by norm_num) hmem

/-- A request failing the truthiness validation makes the inner handler
throw `Invalid request parameters` before any range scan. -/
theorem inner_invalid (req : SearchRequestData) (store : Firestore)
    (hcond : req.serviceType = none ∨ req.serviceType = some "" ∨ req.location = none ∨
      (∃ loc, req.location = some loc ∧ (loc.latitude = none ∨ loc.longitude = none))) :
    searchServiceProvidersInner req store = .error "Invalid request parameters" := by
  rcases req with ⟨st, loc⟩
  unfold searchServiceProvidersInner
  rcases st with _ | s
  · rfl
  · rcases loc with _ | ⟨lla, llo⟩
    · rfl
    · rcases lla with _ | la
      · rfl
      · rcases llo with _ | lo
        · rfl
        · simp only
          rcases hcond with h | h | h | ⟨l2, hl2, h⟩
          · simp at h
          · simp only [Option.some.injEq] at h
            subst h
            simp
          · simp at h
          · simp only [Option.some.injEq] at hl2
            subst hl2
            simp at h

/-- Claim C7: an empty or absent service category, or a location lacking
either coordinate, fails the search with the invalid-request error, and
the outcome is identical for every store (no store query is involved). -/
theorem searchServiceProviders_invalid_request :
    ∀ (req : SearchRequestData) (store store2 : Firestore),
      (req.serviceType = none ∨ req.serviceType = some "" ∨ req.location = none ∨
        (∃ loc, req.location = some loc ∧ (loc.latitude = none ∨ loc.longitude = none))) →
      searchServiceProviders req store =
        .error "Failed to search service providers: Invalid request parameters" ∧
      searchServiceProviders req store = searchServiceProviders req store2 := by
  intro req store store2 hcond
  have h1 : searchServiceProviders req store =
      .error "Failed to search service providers: Invalid request parameters" := by
    unfold searchServiceProviders
    rw [inner_invalid req store hcond]
    simp
  have h2 : searchServiceProviders req store2 =
      .error "Failed to search service providers: Invalid request parameters" := by
    unfold searchServiceProviders
    rw [inner_invalid req store2 hcond]
    simp
  exact ⟨h1, h1.trans h2.symm⟩

/-- Witness for C7: a request lacking the latitude is rejected
identically on two different stores. -/
theorem searchServiceProviders_invalid_request_witness :
    searchServiceProviders ⟨some "classic-cleaning", some ⟨none, some 7⟩⟩ store1 =
      .error "Failed to search service providers: Invalid request parameters" ∧
    searchServiceProviders ⟨some "classic-cleaning", some ⟨none, some 7⟩⟩ store1 =
      searchServiceProviders ⟨some "classic-cleaning", some ⟨none, some 7⟩⟩ ⟨[], []⟩ :=
  searchServiceProviders_invalid_request ⟨some "classic-cleaning", some ⟨none, some 7⟩⟩
    store1 ⟨[], []⟩ (Or.inr (Or.inr (Or.inr ⟨⟨none, some 7⟩, rfl, Or.inl rfl⟩)))

/-- Claim C10: the truthiness validation also rejects present but falsy
fields — latitude 0, longitude 0, or the empty service category — with
the same invalid-request error, although 0 is an in-range coordinate. -/
theorem searchServiceProviders_rejects_zero :
    ∀ (s : String) (la lo : ℚ) (store : Firestore),
      (s = "" ∨ la = 0 ∨ lo = 0) →
      searchServiceProviders ⟨some s, some ⟨some la, some lo⟩⟩ store =
        .error "Failed to search service providers: Invalid request parameters" := by
  intro s la lo store hcond
  unfold searchServiceProviders searchServiceProvidersInner
  simp only
  have h : (s == "" || la == 0 || lo == 0) = true := by
    rcases hcond with h | h | h <;> simp [h]
  rw [h]
  simp

/-- Witness for C10: latitude 0 is rejected. -/
theorem searchServiceProviders_rejects_zero_witness :
    searchServiceProviders ⟨some "classic-cleaning", some ⟨some 0, some 7⟩⟩ store1 =
      .error "Failed to search service providers: Invalid request parameters" :=
  searchServiceProviders_rejects_zero "classic-cleaning" 0 7 store1 (Or.inr (Or.inl rfl))
